import Mathlib

/-!
Verification of the databricks-cli excerpt: the mutually-exclusive option
validator (`databricks_cli/click_types.py`), the output-format click type,
and the library-descriptor builder of `databricks_cli/libraries/cli.py`.

Python dictionaries are modelled as insertion-ordered association lists,
Python `None`-able values as `Option`, and raised exceptions as explicit
result constructors.
-/

set_option autoImplicit false

namespace DatabricksCli

/-- One character of Python `o.replace('_', '-')`. -/
def replChar (c : Char) : Char := if c = '_' then '-' else c

/-- Python `o.replace('_', '-')`: every underscore becomes a hyphen. -/
def replaceUnderscores (s : String) : String := ⟨s.data.map replChar⟩

/-- Python `value.lower()`, character-wise (ASCII case folding). -/
def pyLower (s : String) : String := ⟨s.data.map Char.toLower⟩

/-- The state of a `MutuallyExclusiveOption` instance: its own option name
(`self.name`) and the declared group (`self.mutually_exclusive`). -/
structure MutuallyExclusiveOption where
  name : String
  mutually_exclusive : List String
deriving DecidableEq, Repr

/-- Outcome of `MutuallyExclusiveOption.handle_parse_result`: either it falls
through to the superclass (success), or it raises one of the two
`UsageError`s, carrying exactly the data interpolated into the message. -/
inductive ParseResult where
  | ok : ParseResult
  | usageErrorTooMany (cleaned_name : String) (other_opts : List String) : ParseResult
  | usageErrorTooFew (missing_options : List String) : ParseResult
deriving DecidableEq, Repr

/-- Size of `set(group).intersection(provided)`: the number of distinct
members of `group` that occur in `provided`. -/
def intersectionCount (group provided : List String) : Nat :=
  ((group.dedup).filter (fun o => provided.contains o)).length

/-- `MutuallyExclusiveOption.handle_parse_result` (click_types.py lines
78-91), applied to the keys of the parsed `opts` mapping. -/
def handle_parse_result (self : MutuallyExclusiveOption) (optKeys : List String) :
    ParseResult :=
  let cleaned_opts := optKeys.map replaceUnderscores
  let cleaned_name := replaceUnderscores self.name
  if intersectionCount self.mutually_exclusive cleaned_opts > 1 then
    ParseResult.usageErrorTooMany cleaned_name
      (self.mutually_exclusive.filter (fun opt => opt != cleaned_name))
  else if self.mutually_exclusive.all (fun o => !cleaned_opts.contains o) then
    ParseResult.usageErrorTooFew (self.mutually_exclusive.map (fun o => "--" ++ o))
  else
    ParseResult.ok

namespace OutputClickType

/-- `OutputClickType.convert` (click_types.py lines 31-36): `None` passes
through, `json`/`table` (case-insensitively) pass through, anything else
raises. -/
def convert (value : Option String) : Except String (Option String) :=
  match value with
  | none => Except.ok none
  | some v =>
    if pyLower v ≠ "json" ∧ pyLower v ≠ "table" then
      Except.error "output must be json or table"
    else
      Except.ok (some v)

/-- `OutputClickType.is_json` (click_types.py lines 38-40). -/
def is_json (value : Option String) : Bool :=
  match value with
  | none => false
  | some v => pyLower v == "json"

/-- `OutputClickType.is_table` (click_types.py lines 42-44). -/
def is_table (value : Option String) : Bool :=
  match value with
  | none => false
  | some v => pyLower v == "table"

end OutputClickType

/-- Value of a field inside a library sub-dictionary: maven/pypi/cran fields
are strings, except `exclusions`, which is a list of strings. -/
inductive FieldVal where
  | str : String → FieldVal
  | strList : List String → FieldVal
deriving DecidableEq, Repr

/-- Value under a top-level tag of a library descriptor: `jar`/`egg` map to a
plain string, `maven`/`pypi`/`cran` to a sub-dictionary (insertion-ordered). -/
inductive LibVal where
  | str : String → LibVal
  | dict : List (String × FieldVal) → LibVal
deriving DecidableEq, Repr

/-- A library descriptor: the top-level Python dict, insertion-ordered. -/
abbrev Library := List (String × LibVal)

/-- The resolved option values reaching `install_cli` / `uninstall_cli` that
participate in descriptor assembly.  `maven_exclusion` is click's repeatable
option: a (possibly empty) list, never `None`. -/
structure InstallSelection where
  jar : Option String
  egg : Option String
  maven_coordinates : Option String
  maven_repo : Option String
  maven_exclusion : List String
  pypi_package : Option String
  pypi_repo : Option String
  cran_package : Option String
  cran_repo : Option String
deriving DecidableEq, Repr

/-- The `maven` sub-dictionary built in cli.py lines 156-160: `coordinates`
first, then `repo` if supplied, then `exclusions` if the list is non-empty. -/
def mavenFields (s : InstallSelection) (mc : String) : List (String × FieldVal) :=
  let base := [("coordinates", FieldVal.str mc)]
  let withRepo :=
    match s.maven_repo with
    | some r => base ++ [("repo", FieldVal.str r)]
    | none => base
  if s.maven_exclusion.length > 0 then
    withRepo ++ [("exclusions", FieldVal.strList s.maven_exclusion)]
  else
    withRepo

/-- The `pypi` sub-dictionary built in cli.py lines 163-165. -/
def pypiFields (s : InstallSelection) (p : String) : List (String × FieldVal) :=
  let base := [("package", FieldVal.str p)]
  match s.pypi_repo with
  | some r => base ++ [("repo", FieldVal.str r)]
  | none => base

/-- The `cran` sub-dictionary built in cli.py lines 168-170. -/
def cranFields (s : InstallSelection) (p : String) : List (String × FieldVal) :=
  let base := [("package", FieldVal.str p)]
  match s.cran_repo with
  | some r => base ++ [("repo", FieldVal.str r)]
  | none => base

/-- The `libraries` list assembled by the if/elif chain of `install_cli`
(cli.py lines 150-171); `uninstall_cli` lines 215-237 build the identical
list. -/
def build_install_libraries (s : InstallSelection) : List Library :=
  match s.jar with
  | some jar => [[("jar", LibVal.str jar)]]
  | none =>
  match s.egg with
  | some egg => [[("egg", LibVal.str egg)]]
  | none =>
  match s.maven_coordinates with
  | some mc => [[("maven", LibVal.dict (mavenFields s mc))]]
  | none =>
  match s.pypi_package with
  | some pp => [[("pypi", LibVal.dict (pypiFields s pp))]]
  | none =>
  match s.cran_package with
  | some cp => [[("cran", LibVal.dict (cranFields s cp))]]
  | none => []

/-- The descriptor-building tail of `install_cli` (cli.py lines 150-173):
assemble `libraries`, run `assert len(libraries) == 1` (an `AssertionError`
is modelled as `Except.error` carrying the assertion message), and on
success hand the list to the API client. -/
def install_cli (s : InstallSelection) : Except String (List Library) :=
  let libraries := build_install_libraries s
  if libraries.length = 1 then
    Except.ok libraries
  else
    Except.error "Should have one library to install."

/-- The five mutually-exclusive install variants. -/
inductive Variant where
  | jarV | eggV | mavenV | pypiV | cranV
deriving DecidableEq, Repr

/-- The fixed evaluation order of the if/elif chain. -/
def priorityOrder : List Variant :=
  [Variant.jarV, Variant.eggV, Variant.mavenV, Variant.pypiV, Variant.cranV]

/-- The resolved value of each variant's selecting option. -/
def variantValue (s : InstallSelection) : Variant → Option String
  | Variant.jarV => s.jar
  | Variant.eggV => s.egg
  | Variant.mavenV => s.maven_coordinates
  | Variant.pypiV => s.pypi_package
  | Variant.cranV => s.cran_package

/-- The descriptor the per-variant assembly rules produce for variant `v`
with selecting value `x`. -/
def variantDescriptor (s : InstallSelection) (v : Variant) (x : String) : Library :=
  match v with
  | Variant.jarV => [("jar", LibVal.str x)]
  | Variant.eggV => [("egg", LibVal.str x)]
  | Variant.mavenV => [("maven", LibVal.dict (mavenFields s x))]
  | Variant.pypiV => [("pypi", LibVal.dict (pypiFields s x))]
  | Variant.cranV => [("cran", LibVal.dict (cranFields s x))]

/-- Spec-side builder for comparison: scan the variants in the fixed priority
order and build the descriptor of the first non-absent one (empty list when
every variant is absent).  Stated from the spec's words in §4.2. -/
def specFirstDescriptor (s : InstallSelection) : List Library :=
  match priorityOrder.findSome?
      (fun v => (variantValue s v).map (fun x => variantDescriptor s v x)) with
  | some d => [d]
  | none => []

/-- Number of non-absent variants among the five selecting options. -/
def numSelected (s : InstallSelection) : Nat :=
  (if s.jar.isSome then 1 else 0) + (if s.egg.isSome then 1 else 0) +
    (if s.maven_coordinates.isSome then 1 else 0) +
    (if s.pypi_package.isSome then 1 else 0) +
    (if s.cran_package.isSome then 1 else 0)

/-- The top-level tag keys of a descriptor. -/
def topKeys (lib : Library) : List String := lib.map Prod.fst

/-- The field keys of the sub-dictionary stored under `tag`, or `[]` when the
tag is missing or holds a plain string. -/
def innerKeys (lib : Library) (tag : String) : List String :=
  match lib.lookup tag with
  | some (LibVal.dict fields) => fields.map Prod.fst
  | _ => []

/-- No optional field key appears in the descriptor unless its value was
supplied: `repo` keys require the corresponding repo option, `exclusions`
requires a non-empty exclusion list. -/
def noUnsuppliedOptionalKeys (s : InstallSelection) (lib : Library) : Prop :=
  (s.maven_repo = none → "repo" ∉ innerKeys lib "maven") ∧
  (s.maven_exclusion = [] → "exclusions" ∉ innerKeys lib "maven") ∧
  (s.pypi_repo = none → "repo" ∉ innerKeys lib "pypi") ∧
  (s.cran_repo = none → "repo" ∉ innerKeys lib "cran")

/-- The concrete `INSTALL_OPTIONS` group of cli.py line 92. -/
def installGroup : List String :=
  ["jar", "egg", "maven-coordinates", "pypi-package", "cran-package"]

lemma intersectionCount_eq_zero_iff (g p : List String) :
    intersectionCount g p = 0 ↔ g.all (fun o => !p.contains o) = true := by
  unfold intersectionCount
  rw [List.length_eq_zero, List.filter_eq_nil_iff]
  simp [List.mem_dedup]

lemma replChar_idem (c : Char) : replChar (replChar c) = replChar c := by
  by_cases h : c = '_' <;> simp [replChar, h]

lemma replaceUnderscores_idem (s : String) :
    replaceUnderscores (replaceUnderscores s) = replaceUnderscores s := by
  have h : (s.data.map replChar).map replChar = s.data.map replChar := by
    rw [List.map_map]
    have hc : replChar ∘ replChar = replChar := funext replChar_idem
    rw [hc]
  exact congrArg String.mk h

/-- C1: `handle_parse_result` succeeds (raises no `UsageError`) iff, after
separator normalization, exactly one member of the mutually exclusive group
is among the provided option names. -/
theorem handle_parse_result_ok_iff (self : MutuallyExclusiveOption) (optKeys : List String) :
    handle_parse_result self optKeys = ParseResult.ok ↔
      intersectionCount self.mutually_exclusive (optKeys.map replaceUnderscores) = 1 := by
  simp only [handle_parse_result]
  split_ifs with h1 h2
  · exact iff_of_false (by simp) (by omega)
  · refine iff_of_false (by simp) ?_
    have h0 := (intersectionCount_eq_zero_iff self.mutually_exclusive
      (optKeys.map replaceUnderscores)).mpr h2
    omega
  · refine iff_of_true rfl ?_
    have h0 : intersectionCount self.mutually_exclusive (optKeys.map replaceUnderscores) ≠ 0 :=
      fun h => h2 ((intersectionCount_eq_zero_iff _ _).mp h)
    omega

/-- C6: when more than one group member is provided, the validator raises the
`TooMany` usage error naming the triggering option (this option's normalized
name) and listing exactly the group members other than that option —
including members that were not supplied. -/
theorem handle_parse_result_too_many (self : MutuallyExclusiveOption) (optKeys : List String)
    (h : intersectionCount self.mutually_exclusive (optKeys.map replaceUnderscores) > 1) :
    ∃ other_opts,
      handle_parse_result self optKeys =
        ParseResult.usageErrorTooMany (replaceUnderscores self.name) other_opts ∧
      ∀ o, o ∈ other_opts ↔ o ∈ self.mutually_exclusive ∧ o ≠ replaceUnderscores self.name := by
  simp only [handle_parse_result]
  rw [if_pos h]
  refine ⟨_, rfl, fun o => ?_⟩
  simp [List.mem_filter]

/-- C6 witness: supplying both `--jar` and `--egg` from the install group. -/
theorem handle_parse_result_too_many_witness :
    ∃ other_opts,
      handle_parse_result ⟨"jar", installGroup⟩ ["jar", "egg"] =
        ParseResult.usageErrorTooMany (replaceUnderscores "jar") other_opts ∧
      ∀ o, o ∈ other_opts ↔ o ∈ installGroup ∧ o ≠ replaceUnderscores "jar" :=
  handle_parse_result_too_many ⟨"jar", installGroup⟩ ["jar", "egg"] (by decide)

/-- C7: when zero group members are provided, the validator raises the
`TooFew` usage error listing every member of the group, each rendered with
its leading double hyphen. -/
theorem handle_parse_result_too_few (self : MutuallyExclusiveOption) (optKeys : List String)
    (h : intersectionCount self.mutually_exclusive (optKeys.map replaceUnderscores) = 0) :
    handle_parse_result self optKeys =
      ParseResult.usageErrorTooFew (self.mutually_exclusive.map (fun o => "--" ++ o)) := by
  have hall := (intersectionCount_eq_zero_iff self.mutually_exclusive
    (optKeys.map replaceUnderscores)).mp h
  simp only [handle_parse_result]
  rw [if_neg (by omega), if_pos hall]

/-- C7 witness: only `--cluster-id` supplied, no install-group member. -/
theorem handle_parse_result_too_few_witness :
    handle_parse_result ⟨"jar", installGroup⟩ ["cluster_id"] =
      ParseResult.usageErrorTooFew (installGroup.map (fun o => "--" ++ o)) :=
  handle_parse_result_too_few ⟨"jar", installGroup⟩ ["cluster_id"] (by decide)

/-- C8: provided option names are compared with underscores normalized to
hyphens, so the validation outcome is unchanged when every provided name has
its underscores replaced by hyphens. -/
theorem handle_parse_result_normalization (self : MutuallyExclusiveOption)
    (optKeys : List String) :
    handle_parse_result self (optKeys.map replaceUnderscores) =
      handle_parse_result self optKeys := by
  have h : (optKeys.map replaceUnderscores).map replaceUnderscores =
      optKeys.map replaceUnderscores := by
    rw [List.map_map]
    have hc : replaceUnderscores ∘ replaceUnderscores = replaceUnderscores :=
      funext replaceUnderscores_idem
    rw [hc]
  simp only [handle_parse_result, h]

def jarOnlySelection : InstallSelection :=
  ⟨some "libs/foo.jar", none, none, none, [], none, none, none, none⟩

def pypiOnlySelection : InstallSelection :=
  ⟨none, none, none, none, [], some "simplejson==3.8.0", none, none, none⟩

def jarAndEggSelection : InstallSelection :=
  ⟨some "a.jar", some "b.egg", none, none, [], none, none, none, none⟩

def mavenFullSelection : InstallSelection :=
  ⟨none, none, some "org.jsoup:jsoup:1.7.2", some "https://repo.example",
    ["slf4j:slf4j"], none, none, none, none⟩

/-- C2 counterexample: with two variants non-absent (`--jar a.jar --egg
b.egg`), the builder does not fail: the `assert len(libraries) == 1` passes
and the jar descriptor is constructed and handed to the API. -/
theorem install_cli_two_selected_succeeds :
    numSelected jarAndEggSelection = 2 ∧
      install_cli jarAndEggSelection = Except.ok [[("jar", LibVal.str "a.jar")]] :=
  ⟨rfl, rfl⟩

/-- C2 amended: the builder fails fatally exactly when zero of the five
variants are non-absent; with one or more non-absent variants the assertion
passes and a descriptor is constructed. -/
theorem install_cli_error_iff_none_selected (s : InstallSelection) :
    (∃ e, install_cli s = Except.error e) ↔ numSelected s = 0 := by
  rcases s with ⟨jar, egg, mc, mr, mex, pp, pr, cp, cr⟩
  cases jar <;> cases egg <;> cases mc <;> cases pp <;> cases cp <;>
    simp [install_cli, build_install_libraries, numSelected]

/-- C3: the builder evaluates the variants in the fixed order jar, egg,
maven, pypi, cran, and the first non-absent one determines the descriptor
(stated as refinement against the spec-side first-match builder; it covers
in particular every input with several non-absent variants). -/
theorem build_install_libraries_priority (s : InstallSelection) :
    build_install_libraries s = specFirstDescriptor s := by
  rcases s with ⟨jar, egg, mc, mr, mex, pp, pr, cp, cr⟩
  cases jar <;> cases egg <;> cases mc <;> cases pp <;> cases cp <;> rfl

/-- C4: with exactly one variant selected, the built descriptor has exactly
one top-level tag key, and carries no optional-field key (`repo`,
`exclusions`) whose value was not supplied. -/
theorem install_single_selection_shape (s : InstallSelection)
    (h : numSelected s = 1) :
    ∃ lib, build_install_libraries s = [lib] ∧ (topKeys lib).length = 1 ∧
      noUnsuppliedOptionalKeys s lib := by
  rcases s with ⟨jar, egg, mc, mr, mex, pp, pr, cp, cr⟩
  cases jar <;> cases egg <;> cases mc <;> cases pp <;> cases cp <;>
    first
      | (refine ⟨_, rfl, rfl, ?_⟩
         rcases mr with _ | mrv <;> rcases mex with _ | ⟨e0, es⟩ <;>
           rcases pr with _ | prv <;> rcases cr with _ | crv <;>
             simp [noUnsuppliedOptionalKeys, innerKeys, mavenFields, pypiFields,
               cranFields, List.lookup])
      | (revert h; simp [numSelected])

/-- C4 witness: the jar-only selection. -/
theorem install_single_selection_shape_witness :
    ∃ lib, build_install_libraries jarOnlySelection = [lib] ∧ (topKeys lib).length = 1 ∧
      noUnsuppliedOptionalKeys jarOnlySelection lib :=
  install_single_selection_shape jarOnlySelection (by decide)

/-- C5: for a maven selection the descriptor under tag `maven` always has
`coordinates`, has `repo` exactly when a repo was supplied, and has
`exclusions` exactly when the exclusion list is non-empty (so an empty list
behaves as if not supplied). -/
theorem maven_descriptor_fields (s : InstallSelection) (c : String)
    (hj : s.jar = none) (he : s.egg = none) (hm : s.maven_coordinates = some c) :
    ∃ fields, build_install_libraries s = [[("maven", LibVal.dict fields)]] ∧
      fields.lookup "coordinates" = some (FieldVal.str c) ∧
      fields.map Prod.fst =
        ["coordinates"] ++ (if s.maven_repo.isSome then ["repo"] else []) ++
          (if s.maven_exclusion = [] then [] else ["exclusions"]) := by
  rcases s with ⟨jar, egg, mc, mr, mex, pp, pr, cp, cr⟩
  dsimp only at hj he hm ⊢
  subst hj he hm
  rcases mr with _ | r <;> rcases mex with _ | ⟨e0, es⟩ <;>
    exact ⟨_, rfl, by simp [mavenFields, List.lookup], by simp [mavenFields]⟩

/-- C5 witness: maven with repo and one exclusion. -/
theorem maven_descriptor_fields_witness :
    ∃ fields,
      build_install_libraries mavenFullSelection = [[("maven", LibVal.dict fields)]] ∧
      fields.lookup "coordinates" = some (FieldVal.str "org.jsoup:jsoup:1.7.2") ∧
      fields.map Prod.fst =
        ["coordinates"] ++ (if mavenFullSelection.maven_repo.isSome then ["repo"] else []) ++
          (if mavenFullSelection.maven_exclusion = [] then [] else ["exclusions"]) :=
  maven_descriptor_fields mavenFullSelection "org.jsoup:jsoup:1.7.2" rfl rfl rfl

/-- C9: the two concrete scenarios — jar-only yields `{jar: libs/foo.jar}`,
pypi-only with no repo yields `{pypi: {package: simplejson==3.8.0}}`. -/
theorem install_cli_concrete_scenarios :
    install_cli jarOnlySelection = Except.ok [[("jar", LibVal.str "libs/foo.jar")]] ∧
      install_cli pypiOnlySelection =
        Except.ok [[("pypi", LibVal.dict [("package", FieldVal.str "simplejson==3.8.0")])]] :=
  ⟨rfl, rfl⟩

/-- C10: `convert` passes `None` and case-insensitive `json`/`table` through
unchanged and raises on every other string; `is_json` and `is_table` are
never both true, and both are false on `None`. -/
theorem outputClickType_convert_spec :
    (∀ value : Option String, OutputClickType.convert value = Except.ok value ↔
        (value = none ∨ ∃ v, value = some v ∧ (pyLower v = "json" ∨ pyLower v = "table"))) ∧
    (∀ v : String, pyLower v ≠ "json" → pyLower v ≠ "table" →
        OutputClickType.convert (some v) = Except.error "output must be json or table") ∧
    (∀ value : Option String,
        ¬(OutputClickType.is_json value = true ∧ OutputClickType.is_table value = true)) ∧
    OutputClickType.is_json none = false ∧ OutputClickType.is_table none = false := by
  refine ⟨?_, ?_, ?_, rfl, rfl⟩
  · intro value
    cases value with
    | none => simp [OutputClickType.convert]
    | some v =>
      by_cases hj : pyLower v = "json"
      · simp [OutputClickType.convert, hj]
      · by_cases ht : pyLower v = "table"
        · simp [OutputClickType.convert, hj, ht]
        · simp [OutputClickType.convert, hj, ht]
  · intro v hj ht
    simp [OutputClickType.convert, hj, ht]
  · rintro value ⟨h1, h2⟩
    cases value with
    | none => simp [OutputClickType.is_json] at h1
    | some v =>
      simp [OutputClickType.is_json] at h1
      simp [OutputClickType.is_table] at h2
      rw [h1] at h2
      exact absurd h2 (by decide)

/-- C10 witness: an unsupported format string is rejected. -/
theorem outputClickType_convert_spec_witness :
    OutputClickType.convert (some "yaml") = Except.error "output must be json or table" :=
  outputClickType_convert_spec.2.1 "yaml" (by decide) (by decide)

end DatabricksCli
